import Mathlib

/-!
Shallow embedding of the 80.lv article push plugin (`main.py`, `data.py`,
`spider.py`): data model, filter engine, article store, reconciliation cycle
and dispatch engine.  External collaborators (HTTP fetch, the LLM provider,
the HTML renderer, the chat transport, regular-expression matching and the
file system) are modelled as oracle parameters; everything else is translated
from the source.
-/

namespace Lv80

/-- A JSON scalar usable as an article id: the source normalises ids with
`str(...)` before every comparison, so both numeric and string forms occur. -/
inductive IdVal
  | num (n : Int)
  | str (s : String)
deriving DecidableEq

/-- Python `str(id)`. -/
def idStr : IdVal → String
  | IdVal.num n => toString n
  | IdVal.str s => s

/-- Canonical article record (the shape produced by `spider.py`'s
`_parse_article`).  Presentation-only fields (author, avatar, thumbnail,
date) feed only the external renderer and are omitted. -/
structure Article where
  id : IdVal
  title : String
  excerpt : String
  categories : List String
  slug : String
deriving DecidableEq

/-- `startsWithChars n h`: `n` is an initial run of `h`. -/
def startsWithChars : List Char → List Char → Bool
  | [], _ => true
  | _ :: _, [] => false
  | a :: as, b :: bs => (a == b) && startsWithChars as bs

/-- Contiguous-substring test on character lists (Python `needle in hay`). -/
def hasSubChars (needle : List Char) : List Char → Bool
  | [] => needle.isEmpty
  | b :: bs => startsWithChars needle (b :: bs) || hasSubChars needle bs

/-- Python `k.lower() in s.lower()`. -/
def lowerIn (k s : String) : Bool :=
  hasSubChars (k.data.map Char.toLower) (s.data.map Char.toLower)

/-- Python `str.strip()` on a character list: drop whitespace from both ends. -/
def stripChars (cs : List Char) : List Char :=
  ((cs.dropWhile Char.isWhitespace).reverse.dropWhile Char.isWhitespace).reverse

/-- Python `c.lower().strip()` on a character list. -/
def pyLowerStrip (cs : List Char) : List Char :=
  stripChars (cs.map Char.toLower)

/-- Python `{str(c).lower().strip() for c in cs if c}`, kept as a list of
character lists: falsy (empty) entries are skipped, the rest lowercased then
stripped. -/
def catSet (cs : List String) : List (List Char) :=
  (cs.filter (fun c => c != "")).map (fun c => pyLowerStrip c.data)

/-- Nonempty-intersection test (truthiness of Python `a & b` on sets). -/
def intersects (a b : List (List Char)) : Bool :=
  a.any (fun x => b.contains x)

/-- Configuration snapshot read in `LvPlugin.__init__`. -/
structure Config where
  per_page : Nat
  network_interval : Nat
  fold_threshold : Nat
  filter_keywords : List String
  filter_exclude : List String
  filter_categories : List String
  filter_exclude_categories : List String
  monitor_receiver_groups : List String
  monitor_receiver_users : List String
deriving DecidableEq

/-- `LvPlugin._filter_article` (main.py lines 185-237), translated clause by
clause: exclude-keyword veto, exclude-category veto, then the
include-keyword/include-category combination. -/
def filterArticle (cfg : Config) (art : Article) : Bool :=
  let title := art.title
  let desc := art.excerpt
  let cats := art.categories
  if (!cfg.filter_exclude.isEmpty) &&
      cfg.filter_exclude.any (fun k => lowerIn k title || lowerIn k desc) then false
  else if (!cfg.filter_exclude_categories.isEmpty) &&
      intersects (catSet cfg.filter_exclude_categories) (catSet cats) then false
  else
    let match_keyword :=
      if cfg.filter_keywords.isEmpty then true
      else cfg.filter_keywords.any (fun k => lowerIn k title || lowerIn k desc)
    let match_category :=
      if cfg.filter_categories.isEmpty then true
      else intersects (catSet cfg.filter_categories) (catSet cats)
    if (!cfg.filter_keywords.isEmpty) && (!cfg.filter_categories.isEmpty) then
      match_keyword && match_category
    else if !cfg.filter_keywords.isEmpty then match_keyword
    else if !cfg.filter_categories.isEmpty then match_category
    else true

/-- The filter predicate as the specification words it ("shouldKeep"): reject
on any case-insensitive exclude-keyword substring hit in title or excerpt;
reject when the record's trimmed lowercased category set intersects the
exclude-category set; otherwise require both include dimensions when both are
configured, only the configured one when exactly one is, and accept when
neither is.  Written from the spec, to be compared with `filterArticle`. -/
def shouldKeep (rules : Config) (art : Article) : Bool :=
  if rules.filter_exclude.any (fun k => lowerIn k art.title || lowerIn k art.excerpt) then false
  else if intersects (catSet art.categories) (catSet rules.filter_exclude_categories) then false
  else
    let kwOk := rules.filter_keywords.any (fun k => lowerIn k art.title || lowerIn k art.excerpt)
    let catOk := intersects (catSet rules.filter_categories) (catSet art.categories)
    if (!rules.filter_keywords.isEmpty) && (!rules.filter_categories.isEmpty) then kwOk && catOk
    else if !rules.filter_keywords.isEmpty then kwOk
    else if !rules.filter_categories.isEmpty then catOk
    else true

/-- State of the persisted `data.json` document: absent, unparseable, or a
parsed list of records. -/
inductive StoredFile
  | absent
  | corrupt
  | parsed (records : List Article)
deriving DecidableEq

/-- `data.load_data`: returns the parsed records and the file state it leaves
behind — on `FileNotFoundError` or `JSONDecodeError` it writes `[]` to the
file and returns `[]`. -/
def load_data : StoredFile → List Article × StoredFile
  | StoredFile.parsed records => (records, StoredFile.parsed records)
  | StoredFile.absent => ([], StoredFile.parsed [])
  | StoredFile.corrupt => ([], StoredFile.parsed [])

/-- `data.save_data`: overwrites the file with exactly the given records (the
function itself performs no truncation; the caller truncates). -/
def save_data (data : List Article) : StoredFile :=
  StoredFile.parsed data

/-- Outcome of the LLM call inside `_translate_content`: the call raised, or
responded with text whose `TITLE_CN` / `EXCERPT_CN` regex groups are given
(regex matching is the external part). -/
inductive LlmOutcome
  | raised
  | responded (tMatch eMatch : Option String)
deriving DecidableEq

/-- Oracle for one `_translate_content` call: provider availability, the
result of the external `re.sub`-tag-strip-and-truncate of the excerpt, and
the LLM call outcome. -/
structure TransOracle where
  providerAvailable : Bool
  cleanedExcerpt : String
  outcome : LlmOutcome
deriving DecidableEq

/-- `LvPlugin._translate_content` (main.py lines 96-132): no provider or a
raising call returns the inputs unchanged; a response replaces title/excerpt
by the stripped matched groups when present, else keeps title and the cleaned
excerpt. -/
def translateContent (title excerpt : String) (o : TransOracle) : String × String :=
  if !o.providerAvailable then (title, excerpt)
  else
    let clean_excerpt := if o.cleanedExcerpt = "" then "No description." else o.cleanedExcerpt
    match o.outcome with
    | LlmOutcome.raised => (title, excerpt)
    | LlmOutcome.responded tM eM =>
      let new_title := match tM with | some s => String.mk (stripChars s.data) | none => title
      let new_excerpt := match eM with | some s => String.mk (stripChars s.data) | none => clean_excerpt
      (new_title, new_excerpt)

/-- Message components used by the plugin (`Comp.Image` / `Comp.Plain`). -/
inductive MsgComp
  | image (file : String)
  | plain (text : String)
deriving DecidableEq

/-- Python exceptions the embedding distinguishes. -/
inductive PyErr
  | nameError
deriving DecidableEq

/-- `LvSpider.build_article_url`. -/
def build_article_url (slug : String) : String :=
  "https://80.lv/articles/" ++ slug

/-- `LvPlugin._make_msg_chain` (main.py lines 239-275).  `renderResult` is the
outcome of the external `html_render` call (`none` = it raised).  The local
variable `url` is assigned only after the render call succeeds; the `except`
branch reads `url`, which is unbound when the render call raised, so that
branch raises `NameError` instead of returning the plain-text fallback. -/
def makeMsgChain (art : Article) (renderResult : Option String) : Except PyErr (List MsgComp) :=
  let urlVar : Option String := none
  match renderResult with
  | some imgUrl =>
    let urlVar := some (build_article_url art.slug)
    match urlVar with
    | some url => Except.ok [MsgComp.image imgUrl, MsgComp.plain url]
    | none => Except.error PyErr.nameError
  | none =>
    match urlVar with
    | some url => Except.ok [MsgComp.plain (art.title ++ "\n" ++ url)]
    | none => Except.error PyErr.nameError

/-- Destination kind on the aiocqhttp transport. -/
inductive TargetType
  | group
  | priv
deriving DecidableEq

/-- Observable effects of one reconciliation cycle. -/
inductive Effect
  | alreadyRunning
  | fetchCall
  | saveCall (records : List Article)
  | noNewMsg
  | contextSend (origin : String) (chain : List MsgComp)
  | forwardMsg (tt : TargetType) (target_id : String) (chains : List (List MsgComp))
  | singleMsg (tt : TargetType) (target_id : String) (chain : List MsgComp)
  | sleep (seconds : Nat)
deriving DecidableEq

/-- The originating event of a manual check. -/
structure EventInfo where
  platformName : String
  isGroupMessage : Bool
  sessionId : String
  origin : String
deriving DecidableEq

/-- `send_fold` inside `_post_articles`: one grouped forward call carrying the
whole batch. -/
def send_fold (tt : TargetType) (target_id : String) (chain_list : List (List MsgComp)) :
    List Effect :=
  [Effect.forwardMsg tt target_id chain_list]

/-- `send_unfold` inside `_post_articles`: one individual message per chain,
each followed by `asyncio.sleep(network_interval)`. -/
def send_unfold (cfg : Config) (tt : TargetType) (target_id : String)
    (chain_list : List (List MsgComp)) : List Effect :=
  chain_list.flatMap (fun c => [Effect.singleMsg tt target_id c, Effect.sleep cfg.network_interval])

/-- `LvPlugin._post_articles` (main.py lines 277-345).  `hasAiocq` models
whether `context.get_platform("aiocqhttp")` returned a platform. -/
def postArticles (cfg : Config) (chain_list : List (List MsgComp)) (ev : Option EventInfo)
    (hasAiocq : Bool) : List Effect :=
  if !hasAiocq then
    match ev with
    | some e => chain_list.map (fun c => Effect.contextSend e.origin c)
    | none => []
  else
    match ev with
    | some e =>
      if e.platformName != "aiocqhttp" then
        chain_list.map (fun c => Effect.contextSend e.origin c)
      else
        let target_type := if e.isGroupMessage then TargetType.group else TargetType.priv
        let target_id := e.sessionId
        if chain_list.length > cfg.fold_threshold then send_fold target_type target_id chain_list
        else send_unfold cfg target_type target_id chain_list
    | none =>
      if cfg.monitor_receiver_groups.isEmpty && cfg.monitor_receiver_users.isEmpty then []
      else
        (cfg.monitor_receiver_groups.flatMap (fun gid =>
          if chain_list.length > cfg.fold_threshold then send_fold TargetType.group gid chain_list
          else send_unfold cfg TargetType.group gid chain_list)) ++
        (cfg.monitor_receiver_users.flatMap (fun uid =>
          if chain_list.length > cfg.fold_threshold then send_fold TargetType.priv uid chain_list
          else send_unfold cfg TargetType.priv uid chain_list))

/-- The `for art in latest_articles` loop of `_check_updates` (main.py lines
150-155): every fetched record is appended to `valid_fetched_articles`; those
whose stringified id is unknown and which pass the filter are also appended
to `new_articles`.  Returns `(new_articles, valid_fetched_articles)`. -/
def classifyFetched (cfg : Config) (known_ids : List String) :
    List Article → List Article × List Article
  | [] => ([], [])
  | art :: rest =>
    let art_id := idStr art.id
    let r := classifyFetched cfg known_ids rest
    let isNew := (!(known_ids.contains art_id)) && filterArticle cfg art
    ((if isNew then art :: r.1 else r.1), art :: r.2)

/-- The merge expression of `_check_updates` (main.py line 158): freshly
fetched records first, then the prior log minus entries whose stringified id
collides with a freshly fetched id. -/
def mergeLog (valid_fetched known_articles : List Article) : List Article :=
  let fetched_ids := valid_fetched.map (fun a => idStr a.id)
  valid_fetched ++ known_articles.filter (fun x => !(fetched_ids.contains (idStr x.id)))

/-- The translate-and-render loop of `_check_updates` (main.py lines 171-179):
each candidate is translated (mutating title/excerpt) and rendered in order;
a raising `_make_msg_chain` aborts the loop with that exception. -/
def buildChains (arts : List Article) (trRes : Article → TransOracle)
    (renderRes : Article → Option String) : Except PyErr (List (List MsgComp)) :=
  match arts with
  | [] => Except.ok []
  | art :: rest =>
    let tr := translateContent art.title art.excerpt (trRes art)
    let art2 := { art with title := tr.1, excerpt := tr.2 }
    match makeMsgChain art2 (renderRes art2) with
    | Except.error e => Except.error e
    | Except.ok chain =>
      match buildChains rest trRes renderRes with
      | Except.error e => Except.error e
      | Except.ok chains => Except.ok (chain :: chains)

/-- Mutable plugin state touched by a cycle: the single-flight flag and the
persisted store. -/
structure PluginState where
  is_checking : Bool
  store : StoredFile
deriving DecidableEq

/-- The `if valid_fetched_articles:` save step (main.py lines 157-159):
nonempty fetch merges and persists the first 200 merged records. -/
def saveStep (st1 : PluginState) (valid_fetched known_articles : List Article) :
    PluginState × List Effect :=
  if valid_fetched.isEmpty then (st1, [])
  else
    let all_data := mergeLog valid_fetched known_articles
    ({ st1 with store := save_data (all_data.take 200) },
      [Effect.saveCall (all_data.take 200)])

/-- The translate/render/dispatch tail of the cycle (main.py lines 168-181):
build the message chains (which may raise) and post them. -/
def notifyStep (cfg : Config) (ev : Option EventInfo) (new2 : List Article)
    (trRes : Article → TransOracle) (renderRes : Article → Option String)
    (hasAiocq : Bool) : List Effect × Bool :=
  match buildChains new2 trRes renderRes with
  | Except.error _ => ([], true)
  | Except.ok chain_list => (postArticles cfg chain_list ev hasAiocq, false)

/-- The defensive truncation of `_check_updates` (main.py lines 145-146 and
165-166): clamp a list to `per_page` when it is longer. -/
def truncFetch (p : Nat) (l : List Article) : List Article :=
  if l.length > p then l.take p else l

/-- The `try` body of `_check_updates` (main.py lines 139-181), entered with
`is_checking` already set.  `fetchRes = none` models the fetch step itself
raising.  Returns the state left behind, the emitted effects in order, and
whether an exception propagated. -/
def checkBody (cfg : Config) (st : PluginState) (ev : Option EventInfo)
    (fetchRes : Option (List Article)) (renderRes : Article → Option String)
    (trRes : Article → TransOracle) (hasAiocq : Bool) :
    PluginState × List Effect × Bool :=
  let loaded := load_data st.store
  let known_articles := loaded.1
  let st1 : PluginState := { st with store := loaded.2 }
  let known_ids := known_articles.map (fun item => idStr item.id)
  match fetchRes with
  | none => (st1, [Effect.fetchCall], true)
  | some latest0 =>
    let latest_articles := truncFetch cfg.per_page latest0
    let cls := classifyFetched cfg known_ids latest_articles
    let new_articles := cls.1
    let valid_fetched := cls.2
    let sv := saveStep st1 valid_fetched known_articles
    if new_articles.isEmpty then
      (sv.1,
        Effect.fetchCall :: sv.2 ++ (match ev with | some _ => [Effect.noNewMsg] | none => []),
        false)
    else
      let new2 := truncFetch cfg.per_page new_articles
      let nt := notifyStep cfg ev new2 trRes renderRes hasAiocq
      (sv.1, Effect.fetchCall :: sv.2 ++ nt.1, nt.2)

/-- `LvPlugin._check_updates` (main.py lines 134-183): the single-flight guard
(report only when an event is present), then the body under `try/finally`
with `is_checking` cleared on every exit. -/
def checkUpdates (cfg : Config) (st : PluginState) (ev : Option EventInfo)
    (fetchRes : Option (List Article)) (renderRes : Article → Option String)
    (trRes : Article → TransOracle) (hasAiocq : Bool) :
    PluginState × List Effect × Bool :=
  if st.is_checking then
    (st, (match ev with | some _ => [Effect.alreadyRunning] | none => []), false)
  else
    let r := checkBody cfg { st with is_checking := true } ev fetchRes renderRes trRes hasAiocq
    ({ r.1 with is_checking := false }, r.2.1, r.2.2)

/-! ### Concrete fixtures used by witnesses and counterexamples -/

/-- A minimal configuration: `per_page` 2, defaults elsewhere, no filters,
no broadcast receivers. -/
def sampleCfg : Config :=
  { per_page := 2, network_interval := 2, fold_threshold := 2,
    filter_keywords := [], filter_exclude := [],
    filter_categories := [], filter_exclude_categories := [],
    monitor_receiver_groups := [], monitor_receiver_users := [] }

/-- Known article with id "1" (scenario fixture). -/
def sampleArt1 : Article :=
  { id := IdVal.str "1", title := "", excerpt := "", categories := [], slug := "one" }

/-- Freshly fetched version of id "1", titled "A". -/
def art1A : Article :=
  { id := IdVal.str "1", title := "A", excerpt := "", categories := [], slug := "one" }

/-- Freshly fetched article with id "2", titled "B". -/
def art2B : Article :=
  { id := IdVal.str "2", title := "B", excerpt := "", categories := [], slug := "two" }

/-- A translation oracle with no provider configured. -/
def sampleTr : Article → TransOracle :=
  fun _ => { providerAvailable := false, cleanedExcerpt := "", outcome := LlmOutcome.raised }

/-- A render oracle that always succeeds. -/
def sampleRr : Article → Option String :=
  fun _ => some "img"

/-- A manual-check event arriving from an aiocqhttp group chat. -/
def sampleEv : EventInfo :=
  { platformName := "aiocqhttp", isGroupMessage := true, sessionId := "g1", origin := "o1" }

/-- A manual-check event arriving from a transport without grouped sends. -/
def sampleEvOther : EventInfo :=
  { platformName := "qq_official", isGroupMessage := false, sessionId := "u1", origin := "o2" }

/-! ### Helper lemmas -/

theorem notEmpty_and_any {α : Type} (l : List α) (p : α → Bool) :
    ((!l.isEmpty) && l.any p) = l.any p := by
  cases l <;> simp

theorem intersects_eq_true (a b : List (List Char)) :
    intersects a b = true ↔ ∃ s ∈ a, s ∈ b := by
  simp [intersects, List.any_eq_true]

theorem intersects_comm (a b : List (List Char)) : intersects a b = intersects b a := by
  cases h1 : intersects a b <;> cases h2 : intersects b a <;> try rfl
  · obtain ⟨s, hsb, hsa⟩ := (intersects_eq_true b a).mp h2
    have h3 : intersects a b = true := (intersects_eq_true a b).mpr ⟨s, hsa, hsb⟩
    simp [h1] at h3
  · obtain ⟨s, hsa, hsb⟩ := (intersects_eq_true a b).mp h1
    have h3 : intersects b a = true := (intersects_eq_true b a).mpr ⟨s, hsb, hsa⟩
    simp [h2] at h3

theorem intersects_nil_right (a : List (List Char)) : intersects a [] = false := by
  simp [intersects]

theorem notEmpty_and_intersects (l : List String) (c : List (List Char)) :
    ((!l.isEmpty) && intersects (catSet l) c) = intersects c (catSet l) := by
  cases l with
  | nil => simp [catSet, intersects_nil_right]
  | cons x xs => simp [List.isEmpty, intersects_comm]

theorem classifyFetched_eq (cfg : Config) (ids : List String) (l : List Article) :
    classifyFetched cfg ids l
      = (l.filter (fun a => (!(ids.contains (idStr a.id))) && filterArticle cfg a), l) := by
  induction l with
  | nil => rfl
  | cons a rest ih =>
    simp only [classifyFetched, ih, List.filter_cons]

theorem saveCall_notin_choice (cfg : Config) (chains : List (List MsgComp))
    (tt : TargetType) (tid : String) (l : List Article) :
    Effect.saveCall l
      ∉ (if chains.length > cfg.fold_threshold then send_fold tt tid chains
         else send_unfold cfg tt tid chains) := by
  split
  · simp [send_fold]
  · simp [send_unfold]

theorem saveCall_notin_postArticles (cfg : Config) (chains : List (List MsgComp))
    (ev : Option EventInfo) (hA : Bool) (l : List Article) :
    Effect.saveCall l ∉ postArticles cfg chains ev hA := by
  intro hmem
  rcases ev with _ | e
  · cases hA
    · simp [postArticles] at hmem
    · by_cases hge : (cfg.monitor_receiver_groups.isEmpty && cfg.monitor_receiver_users.isEmpty) = true
      · simp [postArticles, hge] at hmem
      · by_cases hf : chains.length > cfg.fold_threshold
        · simp [postArticles, hge, hf, send_fold] at hmem
        · simp [postArticles, hge, hf, send_unfold] at hmem
  · cases hA
    · simp [postArticles] at hmem
    · by_cases hp : e.platformName = "aiocqhttp"
      · by_cases hf : chains.length > cfg.fold_threshold
        · simp [postArticles, hp, hf, send_fold] at hmem
        · simp [postArticles, hp, hf, send_unfold] at hmem
      · simp [postArticles, hp] at hmem

/-! ### Claim theorems -/

/-- Claim C3: the filter follows the five-step order — exclude-keyword veto on
title or excerpt (case-insensitive substring), exclude-category veto on the
trimmed lowercased category sets, then: both include dimensions required when
both are configured, only the configured one when exactly one is, acceptance
when neither is; and an exclude hit forces `false` regardless of the include
rules.  Stated as: `filterArticle` (from the source) coincides with
`shouldKeep` (from the spec's words), plus the two veto properties. -/
theorem filter_engine_spec (cfg : Config) (art : Article) :
    filterArticle cfg art = shouldKeep cfg art
    ∧ (cfg.filter_exclude.any (fun k => lowerIn k art.title || lowerIn k art.excerpt) = true →
        filterArticle cfg art = false)
    ∧ (intersects (catSet art.categories) (catSet cfg.filter_exclude_categories) = true →
        filterArticle cfg art = false) := by
  refine ⟨?_, ?_, ?_⟩
  · unfold filterArticle shouldKeep
    simp only [notEmpty_and_any, notEmpty_and_intersects]
    cases hkw : cfg.filter_keywords with
    | nil =>
      cases hct : cfg.filter_categories with
      | nil => simp
      | cons c cs => simp
    | cons k ks =>
      cases hct : cfg.filter_categories with
      | nil => simp
      | cons c cs => simp
  · intro h
    unfold filterArticle
    simp only [notEmpty_and_any]
    simp [h]
  · intro h
    unfold filterArticle
    simp only [notEmpty_and_any, notEmpty_and_intersects]
    by_cases h1 : cfg.filter_exclude.any
        (fun k => lowerIn k art.title || lowerIn k art.excerpt) = true
    · simp [h1]
    · simp [h1, h]

/-- Witness for C3 at a concrete input: an excluded category vetoes a record
that matches an include keyword. -/
theorem filter_engine_spec_witness :
    filterArticle
      { per_page := 1, network_interval := 2, fold_threshold := 2,
        filter_keywords := ["art"], filter_exclude := [],
        filter_categories := [], filter_exclude_categories := ["Sponsored"],
        monitor_receiver_groups := [], monitor_receiver_users := [] }
      { id := IdVal.str "1", title := "Great Art", excerpt := "",
        categories := ["Sponsored", "Interviews"], slug := "great-art" } = false :=
  (filter_engine_spec _ _).2.2 (by decide)

/-- Claim C9: `load_data` returns the persisted sequence when the file is
readable; when the file is absent or corrupt it returns the empty sequence
and reinitializes the persisted storage to an empty list; no error channel
exists, so corruption never propagates to the caller. -/
theorem load_data_recovery (recs : List Article) :
    load_data (StoredFile.parsed recs) = (recs, StoredFile.parsed recs)
    ∧ load_data StoredFile.absent = ([], StoredFile.parsed [])
    ∧ load_data StoredFile.corrupt = ([], StoredFile.parsed []) :=
  ⟨rfl, rfl, rfl⟩

/-- Claim C7: when the provider is unavailable or the LLM call raises,
`_translate_content` returns the original title and excerpt unchanged; and
translation outcomes never make the chain-building loop fail (only a render
failure can). -/
theorem translate_fallback (title excerpt : String) (o : TransOracle) :
    (o.providerAvailable = false → translateContent title excerpt o = (title, excerpt))
    ∧ (o.outcome = LlmOutcome.raised → translateContent title excerpt o = (title, excerpt))
    ∧ (∀ (arts : List Article) (tr : Article → TransOracle) (rr : Article → Option String),
        (∀ a, rr a ≠ none) →
        ∃ chains, buildChains arts tr rr = Except.ok chains) := by
  refine ⟨?_, ?_, ?_⟩
  · intro h
    simp [translateContent, h]
  · intro h
    cases hp : o.providerAvailable <;> simp [translateContent, hp, h]
  · intro arts tr rr hr
    induction arts with
    | nil => exact ⟨[], rfl⟩
    | cons a rest ih =>
      obtain ⟨chains, hch⟩ := ih
      set a2 : Article :=
        { a with
          title := (translateContent a.title a.excerpt (tr a)).1,
          excerpt := (translateContent a.title a.excerpt (tr a)).2 } with ha2
      cases hx : rr a2 with
      | none => exact absurd hx (hr a2)
      | some u =>
        refine ⟨[MsgComp.image u, MsgComp.plain (build_article_url a2.slug)] :: chains, ?_⟩
        simp [buildChains, ← ha2, hx, makeMsgChain, hch]

/-- Witness for C7: a missing provider leaves a concrete pair unchanged, and a
batch whose renders all succeed builds its chains without raising. -/
theorem translate_fallback_witness :
    translateContent "T" "E"
        { providerAvailable := false, cleanedExcerpt := "", outcome := LlmOutcome.raised }
      = ("T", "E")
    ∧ ∃ chains, buildChains [sampleArt1] sampleTr sampleRr = Except.ok chains :=
  ⟨(translate_fallback "T" "E" _).1 rfl,
   (translate_fallback "T" "E"
      { providerAvailable := false, cleanedExcerpt := "", outcome := LlmOutcome.raised }).2.2
     [sampleArt1] sampleTr sampleRr (fun _ h => Option.noConfusion h)⟩

/-- Claim C6 (code bug): when the external render call raises, the `except`
branch of `_make_msg_chain` reads the local `url`, which is assigned only
after the render call, so the fallback itself raises `NameError` instead of
returning the plain-text title+URL item — and the cycle aborts.  The second
conjunct shows the successful path for contrast. -/
theorem render_fallback_name_bug :
    makeMsgChain sampleArt1 none = Except.error PyErr.nameError
    ∧ makeMsgChain sampleArt1 (some "img")
        = Except.ok [MsgComp.image "img", MsgComp.plain "https://80.lv/articles/one"] :=
  ⟨rfl, rfl⟩

/-- Claim C1: if a cycle is already in progress, `_check_updates` performs no
fetch, filter, save or dispatch (its only effect is the "already running"
report, present exactly when the call was manual), leaves the state untouched
and returns without raising; otherwise the flag is set for the body's
duration and is false again on every exit path — success, no-new-articles,
or exception. -/
theorem single_flight_guard (cfg : Config) (st : PluginState) (ev : Option EventInfo)
    (fetchRes : Option (List Article)) (renderRes : Article → Option String)
    (trRes : Article → TransOracle) (hasAiocq : Bool) :
    (st.is_checking = true →
      checkUpdates cfg st ev fetchRes renderRes trRes hasAiocq
        = (st, (match ev with | some _ => [Effect.alreadyRunning] | none => []), false))
    ∧ (st.is_checking = false →
      (checkUpdates cfg st ev fetchRes renderRes trRes hasAiocq).1.is_checking = false) := by
  constructor
  · intro h
    simp [checkUpdates, h]
  · intro h
    simp [checkUpdates, h]

/-- Witness for C1: with the flag set, a manual call only reports "already
running"; with the flag clear, it is clear again after a full cycle (here one
that raises in the fetch step). -/
theorem single_flight_guard_witness :
    checkUpdates sampleCfg { is_checking := true, store := StoredFile.parsed [] } (some sampleEv)
        (some [art2B]) sampleRr sampleTr true
      = ({ is_checking := true, store := StoredFile.parsed [] }, [Effect.alreadyRunning], false)
    ∧ (checkUpdates sampleCfg { is_checking := false, store := StoredFile.parsed [] } none
        none sampleRr sampleTr true).1.is_checking = false :=
  ⟨(single_flight_guard sampleCfg _ (some sampleEv) (some [art2B]) sampleRr sampleTr true).1 rfl,
   (single_flight_guard sampleCfg _ none none sampleRr sampleTr true).2 rfl⟩

/-- Claim C2: in every cycle, every fetched record (after the defensive
`per_page` clamp) enters the seen merge set; a fetched record is a new
candidate iff its stringified id is not among the known ids and it passes
the filter; and whenever the fetch was nonempty — regardless of how many
candidates passed filtering — the effects include persisting the merge of
the fetched records (fetch order first) with the non-colliding prior log
entries, truncated to 200. -/
theorem reconciliation_postcondition (cfg : Config) (st : PluginState) (ev : Option EventInfo)
    (latest : List Article) (renderRes : Article → Option String)
    (trRes : Article → TransOracle) (hasAiocq : Bool) :
    (classifyFetched cfg ((load_data st.store).1.map (fun item => idStr item.id))
        (truncFetch cfg.per_page latest)).2 = truncFetch cfg.per_page latest
    ∧ (classifyFetched cfg ((load_data st.store).1.map (fun item => idStr item.id))
        (truncFetch cfg.per_page latest)).1
      = (truncFetch cfg.per_page latest).filter
          (fun a =>
            (!(((load_data st.store).1.map (fun item => idStr item.id)).contains (idStr a.id)))
              && filterArticle cfg a)
    ∧ (truncFetch cfg.per_page latest ≠ [] →
        Effect.saveCall ((mergeLog (truncFetch cfg.per_page latest) (load_data st.store).1).take 200)
          ∈ (checkBody cfg st ev (some latest) renderRes trRes hasAiocq).2.1) := by
  refine ⟨?_, ?_, ?_⟩
  · rw [classifyFetched_eq]
  · rw [classifyFetched_eq]
  · intro hne
    have hie : (truncFetch cfg.per_page latest).isEmpty = false := by
      cases htf : truncFetch cfg.per_page latest
      · exact absurd htf hne
      · rfl
    simp only [checkBody, saveStep, classifyFetched_eq, hie]
    split <;> simp

/-- Witness for C2 at the spec's scenario: known log `[{id:"1"}]`, fetch
`[{id:"1",title:"A"},{id:"2",title:"B"}]`, no filters: the new candidates are
exactly `[art2B]` and the persisted merge is `[art1A, art2B]` (fetch order
first, the stale id-1 entry dropped). -/
theorem reconciliation_postcondition_witness :
    (classifyFetched sampleCfg ["1"] [art1A, art2B]).1 = [art2B]
    ∧ Effect.saveCall [art1A, art2B]
        ∈ (checkBody sampleCfg { is_checking := true, store := StoredFile.parsed [sampleArt1] }
            none (some [art1A, art2B]) sampleRr sampleTr true).2.1 :=
  ⟨(reconciliation_postcondition sampleCfg
      { is_checking := true, store := StoredFile.parsed [sampleArt1] }
      none [art1A, art2B] sampleRr sampleTr true).2.1,
   (reconciliation_postcondition sampleCfg
      { is_checking := true, store := StoredFile.parsed [sampleArt1] }
      none [art1A, art2B] sampleRr sampleTr true).2.2 (by decide)⟩

/-- Claim C4: every save the system performs persists at most 200 records:
any `saveCall` effect of any `_check_updates` invocation carries a list of
length at most 200 (the caller truncates with `[:200]` before `save_data`). -/
theorem bounded_log_save (cfg : Config) (st : PluginState) (ev : Option EventInfo)
    (fetchRes : Option (List Article)) (renderRes : Article → Option String)
    (trRes : Article → TransOracle) (hasAiocq : Bool) (l : List Article)
    (h : Effect.saveCall l ∈ (checkUpdates cfg st ev fetchRes renderRes trRes hasAiocq).2.1) :
    l.length ≤ 200 := by
  unfold checkUpdates at h
  split at h
  · rcases ev with _ | e <;> simp at h
  · rcases fetchRes with _ | latest
    · simp [checkBody] at h
    · rcases ev with _ | e
      all_goals simp only [checkBody, saveStep, notifyStep, classifyFetched_eq] at h
      all_goals split at h
      all_goals try split at h
      all_goals try split at h
      all_goals simp at h
      all_goals
        first
          | exact absurd h (saveCall_notin_postArticles _ _ _ _ _)
          | (obtain rfl | hmem := h
             · exact List.length_take_le 200 _
             · exact absurd hmem (saveCall_notin_postArticles _ _ _ _ _))
          | (obtain rfl := h
             exact List.length_take_le 200 _)

/-- Witness for C4: a concrete cycle that saves `[art1A, art2B]` — a list of
length 2, within the 200 bound. -/
theorem bounded_log_save_witness :
    [art1A, art2B].length ≤ 200 :=
  bounded_log_save sampleCfg { is_checking := false, store := StoredFile.parsed [] }
    none (some [art1A, art2B]) sampleRr sampleTr true [art1A, art2B] (by decide)

/-- Claim C10 counterexample: with a corrupt stored file and an empty fetch,
the cycle leaves the persisted file different from how it was before the
cycle (the load step reinitializes it to the empty list), so "the persisted
log is left exactly as it was" fails as stated. -/
theorem empty_fetch_counterexample :
    (checkUpdates sampleCfg { is_checking := false, store := StoredFile.corrupt } none (some [])
        sampleRr sampleTr true).1.store ≠ StoredFile.corrupt := by
  decide

/-- Claim C10 as amended: when the fetch returns an empty sequence the cycle
performs no save at all, and — provided the stored file was readable — the
persisted log is left exactly as it was before the cycle.  (An absent or
corrupt file is reinitialized to `[]` by the load step regardless of the
fetch result.) -/
theorem empty_fetch_frame (cfg : Config) (st : PluginState) (ev : Option EventInfo)
    (renderRes : Article → Option String) (trRes : Article → TransOracle) (hasAiocq : Bool) :
    (∀ l, Effect.saveCall l ∉ (checkUpdates cfg st ev (some []) renderRes trRes hasAiocq).2.1)
    ∧ (∀ recs, st.store = StoredFile.parsed recs →
        (checkUpdates cfg st ev (some []) renderRes trRes hasAiocq).1.store
          = StoredFile.parsed recs) := by
  constructor
  · intro l hmem
    rcases ev with _ | e <;> cases hc : st.is_checking <;>
      simp [checkUpdates, hc, checkBody, saveStep, truncFetch, classifyFetched] at hmem
  · intro recs hst
    rcases ev with _ | e <;> cases hc : st.is_checking <;>
      simp [checkUpdates, hc, checkBody, saveStep, truncFetch, classifyFetched, hst, load_data]

/-- Witness for C10's amended claim: a readable one-record store survives an
empty-fetch cycle unchanged and no save effect is emitted. -/
theorem empty_fetch_frame_witness :
    Effect.saveCall []
      ∉ (checkUpdates sampleCfg { is_checking := false, store := StoredFile.parsed [sampleArt1] }
          none (some []) sampleRr sampleTr true).2.1
    ∧ (checkUpdates sampleCfg { is_checking := false, store := StoredFile.parsed [sampleArt1] }
        none (some []) sampleRr sampleTr true).1.store = StoredFile.parsed [sampleArt1] :=
  ⟨(empty_fetch_frame sampleCfg _ none sampleRr sampleTr true).1 [],
   (empty_fetch_frame sampleCfg _ none sampleRr sampleTr true).2 [sampleArt1] rfl⟩

/-- Claim C5: on the grouped-send-capable transport, a batch strictly larger
than the fold threshold goes out as exactly one grouped forward call to the
destination, and a batch of at most the threshold goes out as sequential
individual messages with the configured pacing delay after each send —
identically per destination on the scheduled broadcast path — and the fold
path emits no pacing delay at all. -/
theorem fold_unfold_dispatch (cfg : Config) (chains : List (List MsgComp)) (e : EventInfo)
    (hp : e.platformName = "aiocqhttp") :
    (chains.length > cfg.fold_threshold →
      postArticles cfg chains (some e) true
        = [Effect.forwardMsg (if e.isGroupMessage then TargetType.group else TargetType.priv)
            e.sessionId chains])
    ∧ (chains.length ≤ cfg.fold_threshold →
      postArticles cfg chains (some e) true
        = chains.flatMap (fun c =>
            [Effect.singleMsg (if e.isGroupMessage then TargetType.group else TargetType.priv)
              e.sessionId c,
             Effect.sleep cfg.network_interval]))
    ∧ (postArticles cfg chains none true
        = (cfg.monitor_receiver_groups.flatMap (fun gid =>
            if chains.length > cfg.fold_threshold then send_fold TargetType.group gid chains
            else send_unfold cfg TargetType.group gid chains))
          ++ (cfg.monitor_receiver_users.flatMap (fun uid =>
            if chains.length > cfg.fold_threshold then send_fold TargetType.priv uid chains
            else send_unfold cfg TargetType.priv uid chains)))
    ∧ (∀ tt tid s, Effect.sleep s ∉ send_fold tt tid chains) := by
  refine ⟨?_, ?_, ?_, ?_⟩
  · intro h
    simp [postArticles, hp, h, send_fold]
  · intro h
    have h2 : ¬(chains.length > cfg.fold_threshold) := by omega
    simp [postArticles, hp, h2, send_unfold]
  · by_cases hge : (cfg.monitor_receiver_groups.isEmpty && cfg.monitor_receiver_users.isEmpty) = true
    · obtain ⟨hg, hu⟩ := Bool.and_eq_true_iff.mp hge
      rw [List.isEmpty_iff] at hg hu
      simp [postArticles, hg, hu]
    · simp [postArticles, hge]
  · intro tt tid s
    simp [send_fold]

/-- Witness for C5 with `foldThreshold = 2`: a 3-item batch is one grouped
forward call; a 2-item batch is two individual sends, each followed by the
configured 2-second pause. -/
theorem fold_unfold_dispatch_witness :
    postArticles sampleCfg [[MsgComp.plain "1"], [MsgComp.plain "2"], [MsgComp.plain "3"]]
        (some sampleEv) true
      = [Effect.forwardMsg TargetType.group "g1"
          [[MsgComp.plain "1"], [MsgComp.plain "2"], [MsgComp.plain "3"]]]
    ∧ postArticles sampleCfg [[MsgComp.plain "1"], [MsgComp.plain "2"]] (some sampleEv) true
      = [Effect.singleMsg TargetType.group "g1" [MsgComp.plain "1"], Effect.sleep 2,
         Effect.singleMsg TargetType.group "g1" [MsgComp.plain "2"], Effect.sleep 2] :=
  ⟨(fold_unfold_dispatch sampleCfg
      [[MsgComp.plain "1"], [MsgComp.plain "2"], [MsgComp.plain "3"]] sampleEv rfl).1
      (by decide),
   (fold_unfold_dispatch sampleCfg
      [[MsgComp.plain "1"], [MsgComp.plain "2"]] sampleEv rfl).2.1 (by decide)⟩

/-- Claim C8: a manually triggered cycle delivers only to the originating
conversation: when the aiocqhttp platform is missing, or the requester's
transport is not aiocqhttp (so grouped/forwarded sends are unavailable), the
batch goes out as sequential individual `context.send_message` calls to the
event's origin — with no dependence on the fold threshold or batch size —
and on aiocqhttp it goes to the event's own session only. -/
theorem manual_origin_dispatch (cfg : Config) (chains : List (List MsgComp)) (e : EventInfo)
    (hA : Bool) :
    (hA = false →
      postArticles cfg chains (some e) hA
        = chains.map (fun c => Effect.contextSend e.origin c))
    ∧ (e.platformName ≠ "aiocqhttp" →
      postArticles cfg chains (some e) hA
        = chains.map (fun c => Effect.contextSend e.origin c))
    ∧ (hA = true → e.platformName = "aiocqhttp" →
      postArticles cfg chains (some e) hA
        = (if chains.length > cfg.fold_threshold
           then send_fold (if e.isGroupMessage then TargetType.group else TargetType.priv)
                  e.sessionId chains
           else send_unfold cfg (if e.isGroupMessage then TargetType.group else TargetType.priv)
                  e.sessionId chains)) := by
  refine ⟨?_, ?_, ?_⟩
  · intro h
    simp [postArticles, h]
  · intro h
    cases hA
    · simp [postArticles]
    · simp [postArticles, h]
  · intro h hp
    subst h
    simp [postArticles, hp]

/-- Witness for C8: a manual check from a non-aiocqhttp transport with a
3-item batch (above the threshold) still goes out as three sequential
origin-directed sends. -/
theorem manual_origin_dispatch_witness :
    postArticles sampleCfg [[MsgComp.plain "1"], [MsgComp.plain "2"], [MsgComp.plain "3"]]
        (some sampleEvOther) true
      = [Effect.contextSend "o2" [MsgComp.plain "1"],
         Effect.contextSend "o2" [MsgComp.plain "2"],
         Effect.contextSend "o2" [MsgComp.plain "3"]] :=
  (manual_origin_dispatch sampleCfg
    [[MsgComp.plain "1"], [MsgComp.plain "2"], [MsgComp.plain "3"]] sampleEvOther true).2.1
    (by decide)

end Lv80
